import Mathlib

/-!
Shallow embedding of the cross-context orchestration layer of quick-threejs:
the worker-pool handshake, the lifecycle state machine, the proxy-event
forwarding (resize), the resource-loader message pipeline and the scene-graph
(de)serialization round trip, together with the public `register` entry point.

Each definition is translated from the TypeScript source under
`packages/reactive/src`; definitions whose source is not part of the
repository snapshot are modelled from the specification and say so in their
doc comment.
-/

namespace QuickThree

/-- Lifecycle states republished across the context boundary
(`common/enums/lifecycle.enum`, as consumed by `core/core.module.ts` and
`modules/register/register.module.ts`). -/
inductive LifecycleState where
  | INITIALIZED
  | UPDATE_STARTED
  | UPDATE_ENDED
  | DISPOSED
deriving DecidableEq, Repr

/-- An rxjs `Subject`: the ordered list of events it has pushed to its
subscribers so far, and whether `complete()` has been called.  After
`complete()`, further `next` calls push nothing (rxjs semantics). -/
structure RxSubject (α : Type) where
  events : List α
  closed : Bool
deriving DecidableEq, Repr

/-- A fresh, open subject with no emissions. -/
def RxSubject.fresh {α : Type} : RxSubject α := ⟨[], false⟩

/-- Semantics of `subject.next(e)`: appends the event unless the subject is completed. -/
def RxSubject.next {α : Type} (s : RxSubject α) (e : α) : RxSubject α :=
  if s.closed then s else { s with events := s.events ++ [e] }

/-- Semantics of `subject.complete()`: closes the subject. -/
def RxSubject.complete {α : Type} (s : RxSubject α) : RxSubject α :=
  { s with closed := true }

/-- The `{worker, thread}` part of a pool `run` result: an opaque reference to
the live execution context (`worker`) and to the remote-module proxy
(`thread`); either may be absent (`undefined` in the source). -/
structure WorkerThreadPair where
  worker : Option Nat
  thread : Option Nat
deriving DecidableEq, Repr

/-- The wire shape of a forwarded resize event
(`{type, x, y, top, left, width, height}`). -/
structure ResizeProxyEvent where
  type : String
  x : Int
  y : Int
  top : Int
  left : Int
  width : Int
  height : Int
deriving DecidableEq, Repr

namespace ModulesRegister

/-- The acceptance step of `RegisterModule._initCore`
(`modules/register/register.module.ts` lines 110–125): the pool `run` result
is rejected with `"Unable to retrieve core info."` when `!core.thread ||
!core.worker`, otherwise it is stored as `component.core`. -/
def _initCore (core : WorkerThreadPair) : Except String WorkerThreadPair :=
  if core.thread.isNone || core.worker.isNone then
    Except.error ("Unable to retrieve core info.")
  else Except.ok core

/-- The resize envelope built and sent by `RegisterModule._initController`
(`modules/register/register.module.ts` lines 75–92): `x`/`width` and
`y`/`height` are each `fullScreen ? window.inner* : canvas.*`, and `top`/`left`
come from `canvas.getBoundingClientRect()`. -/
def resizePayload (fullScreen : Bool)
    (innerWidth innerHeight canvasWidth canvasHeight rectTop rectLeft : Int) :
    ResizeProxyEvent :=
  { type := "resize"
  , x := if fullScreen then innerWidth else canvasWidth
  , y := if fullScreen then innerHeight else canvasHeight
  , top := rectTop
  , left := rectLeft
  , width := if fullScreen then innerWidth else canvasWidth
  , height := if fullScreen then innerHeight else canvasHeight }

end ModulesRegister

namespace CoreRegister

/-- The acceptance step of `RegisterModule._initWorkerThread`
(`core/register/register.module.ts` lines 102–124): the pool returns a pair
`[workerThread, queued]`; the result is rejected with `"Unable to retrieve
the worker-thread info."` when `!workerThread || queued`, otherwise the
handle's `worker` and `thread` fields are stored on the service as they are
(without checking that either is present). -/
def _initWorkerThread (runResult : Option WorkerThreadPair × Bool) :
    Except String WorkerThreadPair :=
  match runResult with
  | (none, _) => Except.error ("Unable to retrieve the worker-thread info.")
  | (some workerThread, queued) =>
    if queued then Except.error ("Unable to retrieve the worker-thread info.")
    else Except.ok workerThread

/-- Embeds `RegisterModule._initController` (`core/register/register.module.ts`
lines 77–91): throws when no canvas was initialized; otherwise, when the
service's `thread` or `worker` is missing it returns silently, and when both
are present it forwards a resize exactly when `props.fullScreen` is set.  The
returned boolean records whether the resize call was sent to the worker. -/
def _initController (hasCanvas : Bool) (thread worker : Option Nat)
    (fullScreen : Bool) : Except String Bool :=
  if !hasCanvas then Except.error ("Canvas element is not initialized.")
  else if thread.isNone || worker.isNone then Except.ok false
  else Except.ok fullScreen

end CoreRegister

namespace CoreWorker

/-- The worker-resident `CoreModule`'s observable state
(`core/core.module.ts`): the `component.initialized` flag, whether the
internal timer is live (driving render ticks), and the `lifecycle$$`
subject. -/
structure CoreState where
  initialized : Bool
  ticking : Bool
  lifecycle : RxSubject LifecycleState
deriving DecidableEq, Repr

/-- A freshly constructed `CoreModule`: not initialized, no timer, an open
empty lifecycle subject. -/
def CoreState.fresh : CoreState := ⟨false, false, RxSubject.fresh⟩

/-- The init-subject fields consumed by `CoreModule.init`
(`CoreModuleMessageEventData`): whether a canvas was delivered and whether the
internal timer should be started. -/
structure InitProps where
  hasCanvas : Bool
  startTimer : Bool
deriving DecidableEq, Repr

/-- Embeds `CoreModule.init` (`core/core.module.ts` lines 133–152): returns
unchanged when no canvas is supplied or already initialized; otherwise sets
`initialized`, runs the subsystem setups (sizes, timer — started iff
`startTimer` —, camera, world, renderer, debug) and then pushes
`INITIALIZED` on the lifecycle subject. -/
def init (props : InitProps) (s : CoreState) : CoreState :=
  if !props.hasCanvas || s.initialized then s
  else
    { s with
      initialized := true
      ticking := props.startTimer
      lifecycle := s.lifecycle.next .INITIALIZED }

/-- Modelled from the spec: the render/update tick.  The timer and renderer
modules that drive it are not part of the source snapshot; §4.3 states "Each
update tick emits `UPDATE_STARTED` before doing render work and
`UPDATE_ENDED` immediately after", and ticks run only while the internal
timer is live (started by `init`, stopped by `dispose` before `DISPOSED` is
published). -/
def tick (s : CoreState) : CoreState :=
  if s.ticking then
    { s with lifecycle := (s.lifecycle.next .UPDATE_STARTED).next .UPDATE_ENDED }
  else s

/-- Embeds `CoreModule.dispose` (`core/core.module.ts` lines 162–171): disposes the
timer/camera/renderer/sizes/world subsystems (so no further ticks), pushes
`DISPOSED` on the lifecycle subject, then completes it.  The
`component.initialized` flag is not reset. -/
def dispose (s : CoreState) : CoreState :=
  { s with
    ticking := false
    lifecycle := (s.lifecycle.next .DISPOSED).complete }

/-- The operations that can reach a worker-resident module instance. -/
inductive Op where
  | init (hasCanvas startTimer : Bool)
  | tick
  | dispose
deriving DecidableEq, Repr

/-- One step of the worker-resident module's observable behaviour. -/
def step (s : CoreState) : Op → CoreState
  | .init hasCanvas startTimer => init ⟨hasCanvas, startTimer⟩ s
  | .tick => tick s
  | .dispose => dispose s

/-- Run a sequence of operations from a state. -/
def run (s : CoreState) : List Op → CoreState
  | [] => s
  | op :: ops => run (step s op) ops

/-- The strictly alternating `UPDATE_STARTED`/`UPDATE_ENDED` pair sequence
produced by `n` render ticks. -/
def updatePairs : Nat → List LifecycleState
  | 0 => []
  | n + 1 => .UPDATE_STARTED :: .UPDATE_ENDED :: updatePairs n

/-- The raw cross-boundary message shape checked by `CoreModule._onMessage`:
an optional canvas reference and the raw (possibly `undefined`, possibly
non-boolean — reduced by `!!` in the source) option fields. -/
structure CoreMessageData where
  canvas : Option Nat
  startTimer : Option Bool
deriving DecidableEq, Repr

/-- Embeds `CoreModule._onMessage` (`core/core.module.ts` lines 112–127): an event
whose data lacks a `canvas`, or arriving when the module is already
initialized, is dropped without any state change; otherwise the option
fields are coerced with `!!` and `init` is called. -/
def _onMessage (s : CoreState) (data : Option CoreMessageData) : CoreState :=
  match data with
  | none => s
  | some d =>
    if d.canvas.isNone || s.initialized then s
    else init ⟨d.canvas.isSome, d.startTimer.getD false⟩ s

end CoreWorker

namespace CoreRegister

/-- The observable effect state of the current (`core/register`)
`RegisterModule`: its public `initialized` flag and how many times each
setup stage has run (one worker is spawned per `_initWorkerThread` run). -/
structure RegisterState where
  initialized : Bool
  canvasInits : Nat
  workersSpawned : Nat
deriving DecidableEq, Repr

/-- A freshly constructed core `RegisterModule`. -/
def RegisterState.fresh : RegisterState := ⟨false, 0, 0⟩

/-- Embeds `RegisterModule.init` (`core/register/register.module.ts` lines
148–159): returns early when `this.initialized` is set, otherwise runs
`_initCanvas`, `_initWorkerThread` (spawning a worker), `_initService`,
`_initController`, `_initObservableProxyEvents` and `_initLoader`.  Faithful
to the source, nothing in this method ever assigns `initialized = true`. -/
def RegisterModule_init (s : RegisterState) : RegisterState :=
  if s.initialized then s
  else { s with
         canvasInits := s.canvasInits + 1
         workersSpawned := s.workersSpawned + 1 }

end CoreRegister

namespace ModulesRegister

/-- The observable effect state of the legacy (`modules/register`)
`RegisterModule`: how many times the setup sequence has run.  This class has
no `initialized` flag at all. -/
structure RegisterState where
  setupRuns : Nat
deriving DecidableEq, Repr

/-- Embeds `RegisterModule.init` (`modules/register/register.module.ts` lines
127–136): unconditionally registers the serializer and runs `_initCanvas`,
`_initCore`, `_initComponent`, `_initController`; there is no
re-entrancy guard. -/
def RegisterModule_init (s : RegisterState) : RegisterState :=
  { s with setupRuns := s.setupRuns + 1 }

end ModulesRegister

namespace Serializer

/-- Modelled from the spec: opaque shared geometry data referenced by scene
nodes (`SerializedGraphNode` side tables, §3).  The serializer itself
(`common/serializers/object3d.serializer` / `deserializeObject3D`) is not
part of the source snapshot. -/
structure Geometry where
  uuid : Nat
  vertices : List Int
deriving DecidableEq, Repr

/-- Modelled from the spec: opaque shared material data referenced by scene
nodes. -/
structure Material where
  uuid : Nat
  color : Nat
deriving DecidableEq, Repr

/-- Modelled from the spec: an animation clip carried in the serialized
scene's side tables. -/
structure AnimationClip where
  clipName : String
  duration : Int
deriving DecidableEq, Repr

/-- Modelled from the spec: a node's local transform. -/
structure Transform where
  position : Int × Int × Int
  rotation : Int × Int × Int
  scale : Int × Int × Int
deriving DecidableEq, Repr

/-- Modelled from the spec: a live scene-graph object tree (meshes, cameras,
nested groups): a node kind tag, a transform, optional shared
geometry/material, and an ordered list of children. -/
inductive SceneObject where
  | node (kind : String) (transform : Transform)
      (geometry : Option Geometry) (material : Option Material)
      (children : List SceneObject)
deriving Repr

/-- Modelled from the spec: `SerializedGraphNode` — the acyclic encoding of a
scene-graph subtree: `{kind, transform, geometryRef, materialRef, children}`
where the refs are indices into the accompanying side tables. -/
inductive SerializedGraphNode where
  | node (kind : String) (transform : Transform)
      (geometryRef : Option Nat) (materialRef : Option Nat)
      (children : List SerializedGraphNode)
deriving Repr

/-- Modelled from the spec: the complete serialized form crossing the context
boundary — the encoded root plus the side tables for shared
geometry/material/animation-clip data. -/
structure SerializedScene where
  root : SerializedGraphNode
  geometries : List Geometry
  materials : List Material
  animations : List AnimationClip
deriving Repr

/-- Modelled from the spec: a live scene plus its animation clips — what the
loader hands to the serializer on the sending side and what the receiving
side reconstructs. -/
structure Scene where
  root : SceneObject
  animations : List AnimationClip
deriving Repr

/-- Index of the first occurrence of an element in a side table (the
reference stored in place of the shared datum). -/
def refIndex {α : Type} [DecidableEq α] : List α → α → Nat
  | [], _ => 0
  | b :: t, a => if b = a then 0 else refIndex t a + 1

mutual

/-- Collects, in pre-order, every geometry referenced in a subtree. -/
def collectGeometries : SceneObject → List Geometry
  | .node _ _ g _ children => g.toList ++ collectGeometriesList children

/-- Collects the geometries of a forest, left to right. -/
def collectGeometriesList : List SceneObject → List Geometry
  | [] => []
  | c :: rest => collectGeometries c ++ collectGeometriesList rest

end

mutual

/-- Collects, in pre-order, every material referenced in a subtree. -/
def collectMaterials : SceneObject → List Material
  | .node _ _ _ m children => m.toList ++ collectMaterialsList children

/-- Collects the materials of a forest, left to right. -/
def collectMaterialsList : List SceneObject → List Material
  | [] => []
  | c :: rest => collectMaterials c ++ collectMaterialsList rest

end

mutual

/-- Encodes a subtree against fixed side tables: shared data is replaced by
its index in the table, children are encoded in order. -/
def encodeNode (gt : List Geometry) (mt : List Material) :
    SceneObject → SerializedGraphNode
  | .node kind transform g m children =>
    .node kind transform (g.map (refIndex gt)) (m.map (refIndex mt))
      (encodeForest gt mt children)

/-- Encodes a forest of subtrees in order. -/
def encodeForest (gt : List Geometry) (mt : List Material) :
    List SceneObject → List SerializedGraphNode
  | [] => []
  | c :: rest => encodeNode gt mt c :: encodeForest gt mt rest

end

mutual

/-- Decodes a subtree: every reference is resolved against the side tables
alone — no access to the sender's objects is available or needed. -/
def decodeNode (gt : List Geometry) (mt : List Material) :
    SerializedGraphNode → SceneObject
  | .node kind transform gr mr children =>
    .node kind transform (gr.map fun i => gt.getD i ⟨0, []⟩)
      (mr.map fun i => mt.getD i ⟨0, 0⟩)
      (decodeForest gt mt children)

/-- Decodes a forest of encoded subtrees in order. -/
def decodeForest (gt : List Geometry) (mt : List Material) :
    List SerializedGraphNode → List SceneObject
  | [] => []
  | c :: rest => decodeNode gt mt c :: decodeForest gt mt rest

end

/-- Encodes a whole scene: builds deduplicated side tables from the tree's
shared data, then encodes the tree against them; animation clips travel in
their own side table. -/
def encodeScene (s : Scene) : SerializedScene :=
  let gt := (collectGeometries s.root).dedup
  let mt := (collectMaterials s.root).dedup
  ⟨encodeNode gt mt s.root, gt, mt, s.animations⟩

/-- Decodes a whole scene from the serialized data alone, yielding a fresh
object graph owned by the receiving context. -/
def decodeScene (e : SerializedScene) : Scene :=
  ⟨decodeNode e.geometries e.materials e.root, e.animations⟩

/-- Pre-order sequence of node kinds of a tree (the claim's notion of node
order). -/
def preOrderKinds : SceneObject → List String
  | .node kind _ _ _ children => kind :: preOrderKindsList children
where
  preOrderKindsList : List SceneObject → List String
    | [] => []
    | c :: rest => preOrderKinds c ++ preOrderKindsList rest

end Serializer

namespace Loader

/-- Modelled from the spec: the `LOADER_SERIALIZED_LOAD_TOKEN` constant
(`common`, not under the source snapshot) marking serialized-load envelopes
on the shared message channel; its exact text is immaterial to the
behaviour. -/
def LOADER_SERIALIZED_LOAD_TOKEN : String := "quick-threejs:loader:serialized-load"

/-- A serialized loader payload as it crosses the boundary
(`SerializedLoadedResourcePayload`): the possibly-absent serialized
resource, the progress counters and the source descriptor's type tag. -/
structure SerializedLoadPayload where
  resource : Option Serializer.SerializedScene
  loadedCount : Nat
  toLoadCount : Nat
  sourceType : String
deriving Repr

/-- A raw envelope received on the worker's low-level message channel:
`event.data`, which may be absent entirely, may lack the token, or may lack
the payload/resource (unrelated messages share this channel). -/
structure LoaderMessageData where
  token : Option String
  payload : Option SerializedLoadPayload
deriving Repr

/-- A decoded loader stream element (`LoadedResourcePayload`): for
`gltfModel` sources the serialized resource has been reconstructed into a
live scene; other resources pass through still in serialized form. -/
structure LoadedResourcePayload where
  resource : Option (Serializer.Scene ⊕ Serializer.SerializedScene)
  loadedCount : Nat
  toLoadCount : Nat
  sourceType : String
deriving Repr

/-- Embeds the `filter` stage of `LoaderController.load$`
(`core/app/loader/loader.controller.ts` lines 23–28): an envelope passes
only when `event.data?.token === LOADER_SERIALIZED_LOAD_TOKEN &&
!!event.data?.payload?.resource`. -/
def acceptLoadMessage (data : Option LoaderMessageData) : Bool :=
  match data with
  | none => false
  | some d =>
    d.token == some LOADER_SERIALIZED_LOAD_TOKEN &&
      (match d.payload with
       | none => false
       | some p => p.resource.isSome)

/-- Embeds the `map` stage of `LoaderController.load$`
(`core/app/loader/loader.controller.ts` lines 29–59): for a present resource
of a `gltfModel` source the serialized scene data is deserialized
(`deserializeObject3D` / `AnimationClip.parse`) into a fresh object graph;
every other payload is returned as-is. -/
def decodeLoadMessage (data : Option LoaderMessageData) : LoadedResourcePayload :=
  match data.bind (·.payload) with
  | none => ⟨none, 0, 0, ""⟩
  | some p =>
    if p.resource.isSome && p.sourceType == "gltfModel" then
      ⟨(p.resource.map fun r => Sum.inl (Serializer.decodeScene r)),
        p.loadedCount, p.toLoadCount, p.sourceType⟩
    else ⟨p.resource.map Sum.inr, p.loadedCount, p.toLoadCount, p.sourceType⟩

/-- Embeds `LoaderController.load$` as a function of the raw message
sequence: malformed envelopes are filtered out, the rest are decoded in
order. -/
def load_obs (msgs : List (Option LoaderMessageData)) : List LoadedResourcePayload :=
  (msgs.filter acceptLoadMessage).map decodeLoadMessage

/-- Embeds `LoaderController.loadCompleted$`
(`core/app/loader/loader.controller.ts` lines 62–64): the element of the
decoded stream passing `payload?.toLoadCount === payload.loadedCount` — the
drain condition. -/
def loadCompleted_obs (msgs : List (Option LoaderMessageData)) :
    List LoadedResourcePayload :=
  (load_obs msgs).filter fun p => p.toLoadCount == p.loadedCount

end Loader

/-- A well-formed serialized-load envelope, used to witness that dropping a
malformed one preserves the rest of the stream. -/
def goodLoadMessage : Option Loader.LoaderMessageData :=
  some ⟨some Loader.LOADER_SERIALIZED_LOAD_TOKEN,
    some ⟨some ⟨.node "Group" ⟨(0, 0, 0), (0, 0, 0), (1, 1, 1)⟩ none none [],
      [], [], []⟩, 1, 1, "gltfModel"⟩⟩

/-- An envelope with a foreign token and no payload — one of the unrelated
messages sharing the low-level channel. -/
def badLoadMessage : Option Loader.LoaderMessageData :=
  some ⟨some "unrelated", none⟩


namespace ModulesRegister

/-- Truthiness of the optional boolean props of `loadResources`: mirrors the
source guards `props.x || props.x === undefined` (an absent option behaves
as `true`, an explicit `false` disables the behaviour). -/
def undefOrTrue (o : Option Bool) : Bool := o.getD false || o.isNone

/-- Observable effects of one `RegisterModule.loadResources` call. -/
structure LoadResourcesEffects where
  disposeCalls : Nat
  loadCalledImmediately : Bool
deriving DecidableEq, Repr

/-- Embeds `RegisterModule.loadResources`
(`modules/register/register.module.ts` lines 138–192), restricted to its
worker-teardown and load-start behaviour: each event of the
progress-completion stream triggers `thread.dispose()` when
`props.disposeOnComplete || props.disposeOnComplete === undefined`, and
`thread.load()` is invoked immediately when `props.immediateLoad ||
props.immediateLoad === undefined`. -/
def loadResources (disposeOnComplete immediateLoad : Option Bool)
    (completedEvents : List Loader.LoadedResourcePayload) : LoadResourcesEffects :=
  { disposeCalls :=
      completedEvents.foldl
        (fun n _ => if undefOrTrue disposeOnComplete then n + 1 else n) 0
  , loadCalledImmediately := undefOrTrue immediateLoad }

end ModulesRegister

/-- A DOM element as far as canvas registration observes it: whether it is an
`HTMLCanvasElement`, whether its dataset carries `reactive === "true"`, and
whether it currently has a parent in the document. -/
structure CanvasElem where
  isCanvas : Bool
  reactiveMark : Bool
  hasParent : Bool
deriving DecidableEq, Repr

/-- The `canvas` register prop: an explicit element, a CSS selector string, or
nothing. -/
inductive CanvasProp where
  | element (e : CanvasElem)
  | selector (sel : String)
  | missing
deriving Repr

/-- The document as canvas setup observes it: selector resolution, plus an
optional failure — when present, the DOM operations throw with that
message (exercising the `try/catch`). -/
structure Dom where
  query : String → Option CanvasElem
  failure : Option String

/-- Result of a canvas-initialization stage: the surface now held (none only
when setup failed), whether a fresh element was appended to the document,
and the error log written by the `catch` branch, if any. -/
structure CanvasInitResult where
  canvas : Option CanvasElem
  appendedFresh : Bool
  log : Option String
deriving DecidableEq, Repr

namespace CoreRegister

/-- The fallback surface created by `_initCanvas`
(`core/register/register.module.ts` lines 57–62): a fresh canvas whose
`dataset["reactive"]` is set to `"true"` before it is appended to the
document body. -/
def fallbackCanvas : CanvasElem := ⟨true, true, true⟩

/-- Embeds `RegisterModule._initCanvas` (`core/register/register.module.ts`
lines 45–68): the supplied element is used if it is a canvas element; else
the selector-resolved element if the prop is a string resolving to a canvas
element; else a fresh canvas is created, marked `data-reactive="true"` and
appended.  Any DOM failure is caught, logged with the subsystem named, and
the method returns normally. -/
def _initCanvas (props : CanvasProp) (dom : Dom) : CanvasInitResult :=
  match dom.failure with
  | some msg =>
    { canvas := none
    , appendedFresh := false
    , log := some ("🛑 Unable to initialize the canvas:\n" ++ msg) }
  | none =>
    let c1 : Option CanvasElem :=
      match props with
      | .element e => if e.isCanvas then some e else none
      | _ => none
    let c2 : Option CanvasElem :=
      match props with
      | .selector sel =>
        match dom.query sel with
        | some q => if q.isCanvas then some q else c1
        | none => c1
      | _ => c1
    match c2 with
    | some c => { canvas := some c, appendedFresh := false, log := none }
    | none => { canvas := some fallbackCanvas, appendedFresh := true, log := none }

/-- Observable effects of `RegisterModule.dispose`. -/
structure DisposeEffects where
  terminatedAll : Bool
  detachedCanvas : Bool
  canvasAfter : Option CanvasElem
  initializedAfter : Bool
deriving DecidableEq, Repr

/-- Embeds `RegisterModule.dispose` (`core/register/register.module.ts`
lines 185–197): terminates every pooled worker, then removes the canvas from
the document body and releases it exactly when
`canvas?.dataset["reactive"] === "true"`, and finally resets the
`initialized` flag. -/
def RegisterModule_dispose (canvas : Option CanvasElem) : DisposeEffects :=
  { terminatedAll := true
  , detachedCanvas :=
      match canvas with
      | some c => c.reactiveMark
      | none => false
  , canvasAfter :=
      match canvas with
      | some c => if c.reactiveMark then none else some c
      | none => none
  , initializedAfter := false }

end CoreRegister

namespace ModulesRegister

/-- The element created by `document.createElement("canvas")` in the legacy
`_initCanvas` (`modules/register/register.module.ts` line 44): a canvas with
no reactive marker and no parent yet. -/
def freshCanvas : CanvasElem := ⟨true, false, false⟩

/-- Embeds `RegisterModule._initCanvas`
(`modules/register/register.module.ts` lines 42–65): a fresh canvas is
created first, then overridden by the supplied element if it is a canvas
element, then by the selector-resolved element if the prop is a string
resolving to a canvas element; whatever element ends up held is appended to
the document body when it has no parent.  Any DOM failure is caught, logged
with the subsystem named, and the method returns normally. -/
def _initCanvas (props : CanvasProp) (dom : Dom) : CanvasInitResult :=
  match dom.failure with
  | some msg =>
    { canvas := none
    , appendedFresh := false
    , log := some ("🛑 Unable to initialize the canvas:\n" ++ msg) }
  | none =>
    let c1 : CanvasElem :=
      match props with
      | .element e => if e.isCanvas then e else freshCanvas
      | _ => freshCanvas
    let c2 : CanvasElem :=
      match props with
      | .selector sel =>
        match dom.query sel with
        | some q => if q.isCanvas then q else c1
        | none => c1
      | _ => c1
    if c2.hasParent then { canvas := some c2, appendedFresh := false, log := none }
    else { canvas := some { c2 with hasParent := true }, appendedFresh := true, log := none }

end ModulesRegister

/-- Stated from the claim's words, for comparison with the two `_initCanvas`
embeddings: the surface is resolved as the supplied element itself if it is
a canvas element; else the selector-resolved element if the supplied value
is a string resolving to a canvas element; else the given fallback.  The
boolean records whether the fallback was needed. -/
def claimResolveCanvas (fallback : CanvasElem) (props : CanvasProp)
    (query : String → Option CanvasElem) : CanvasElem × Bool :=
  match props with
  | .element e => if e.isCanvas then (e, false) else (fallback, true)
  | .selector sel =>
    match query sel with
    | some q => if q.isCanvas then (q, false) else (fallback, true)
    | none => (fallback, true)
  | .missing => (fallback, true)

namespace ModulesRegister

/-- A JavaScript value as the `register` props checks observe it. -/
inductive JSVal where
  | undef
  | boolean (b : Bool)
  | str (s : String)
  | url (u : String)
  | number (n : Int)
  | obj
deriving DecidableEq, Repr

/-- Embeds `isUndefined` from `@quick-threejs/utils`: `=== undefined`. -/
def isUndefined : JSVal → Bool
  | .undef => true
  | _ => false

/-- Embeds `isBoolean` from `@quick-threejs/utils`: `typeof === "boolean"`. -/
def isBoolean : JSVal → Bool
  | .boolean _ => true
  | _ => false

/-- JavaScript `typeof v === "string"`. -/
def isString : JSVal → Bool
  | .str _ => true
  | _ => false

/-- JavaScript `v instanceof URL`. -/
def isURL : JSVal → Bool
  | .url _ => true
  | _ => false

/-- JavaScript truthiness. -/
def truthy : JSVal → Bool
  | .undef => false
  | .boolean b => b
  | .str s => !(s == "")
  | .url _ => true
  | .number n => !(n == 0)
  | .obj => true

/-- Modelled from the spec: the keys of the `DefaultCameraType` string enum
(`common/enums/camera.enum`, not under the source snapshot); §6 names "camera
mode selection" with a default perspective camera. -/
def DefaultCameraTypeKeys : List String := ["PERSPECTIVE", "ORTHOGRAPHIC"]

/-- JavaScript `v in DefaultCameraType`: membership of the value among the
enum's keys. -/
def inDefaultCameraType : JSVal → Bool
  | .str s => DefaultCameraTypeKeys.contains s
  | _ => false

/-- The fields of `RegisterPropsModel` normalized by the `register` entry
point, kept as raw JavaScript values. -/
structure RegisterProps where
  location : JSVal
  defaultCamera : JSVal
  withMiniCamera : JSVal
  startTimer : JSVal
  fullScreen : JSVal
deriving DecidableEq, Repr

/-- Embeds the public `register` entry point
(`modules/register/register.module.ts` lines 231–260): throws unless
`location` is a string or a `URL`; otherwise replaces `defaultCamera` by the
perspective default unless it is truthy and a `DefaultCameraType` key, and
replaces each of `withMiniCamera` / `startTimer` / `fullScreen` by its
default (`false` / `true` / `true`) when it is undefined or not a
boolean. -/
def register (props : RegisterProps) : Except String RegisterProps :=
  if !isString props.location && !isURL props.location then
    Except.error ("Invalid register props detected. location path is required")
  else
    Except.ok
      { props with
        defaultCamera :=
          if !(truthy props.defaultCamera && inDefaultCameraType props.defaultCamera)
          then .str "PERSPECTIVE" else props.defaultCamera
        withMiniCamera :=
          if isUndefined props.withMiniCamera || !isBoolean props.withMiniCamera
          then .boolean false else props.withMiniCamera
        startTimer :=
          if isUndefined props.startTimer || !isBoolean props.startTimer
          then .boolean true else props.startTimer
        fullScreen :=
          if isUndefined props.fullScreen || !isBoolean props.fullScreen
          then .boolean true else props.fullScreen }

/-- Stated from the claim's words, for comparison with `register`: each
init-subject field that is undefined or not of its expected type is replaced
by its default — `startTimer` `true`, `fullScreen` `true`, `withMiniCamera`
`false`, and the camera mode the default perspective camera. -/
def claimNormalize (props : RegisterProps) : RegisterProps :=
  { props with
    defaultCamera :=
      if inDefaultCameraType props.defaultCamera then props.defaultCamera
      else .str "PERSPECTIVE"
    withMiniCamera :=
      if isBoolean props.withMiniCamera then props.withMiniCamera
      else .boolean false
    startTimer :=
      if isBoolean props.startTimer then props.startTimer else .boolean true
    fullScreen :=
      if isBoolean props.fullScreen then props.fullScreen else .boolean true }

end ModulesRegister

/-! ## Theorems -/

/-- C1, amended: in the legacy register module, the spawn handshake accepts
the pool's `run` result exactly when both the live context (`worker`) and
the remote-module proxy (`thread`) are present, and otherwise surfaces the
thrown fatal error unchanged (no retry, no partial handle).  In the current
core register module the check rejects exactly an absent or queued result;
a present, non-queued handle that lacks its `worker` or `thread` is accepted
into subsequent orchestration, which then silently skips the thread-dependent
resize wiring instead of erroring. -/
theorem c1_run_handshake :
    (∀ core : WorkerThreadPair,
      (ModulesRegister._initCore core).isOk = (core.thread.isSome && core.worker.isSome)) ∧
    (∀ core : WorkerThreadPair,
      ModulesRegister._initCore core = Except.ok core ∨
      ModulesRegister._initCore core = Except.error ("Unable to retrieve core info.")) ∧
    (∀ (wt : Option WorkerThreadPair) (queued : Bool),
      (CoreRegister._initWorkerThread (wt, queued)).isOk = (wt.isSome && !queued)) ∧
    (∀ wt : WorkerThreadPair,
      CoreRegister._initWorkerThread (some wt, false) = Except.ok wt) ∧
    (∀ (thread worker : Option Nat) (fullScreen : Bool),
      CoreRegister._initController true thread worker fullScreen =
        Except.ok ((thread.isSome && worker.isSome) && fullScreen)) := by
  refine ⟨?_, ?_, ?_, ?_, ?_⟩
  · rintro ⟨w, t⟩
    cases w <;> cases t <;> rfl
  · rintro ⟨w, t⟩
    cases w <;> cases t <;> simp [ModulesRegister._initCore]
  · rintro (_ | wt) queued
    · rfl
    · cases queued <;> rfl
  · intro wt
    rfl
  · intro thread worker fullScreen
    cases thread <;> cases worker <;> cases fullScreen <;> rfl

/-- C1, counterexample to the claim as stated: the core register module's
handshake accepts a non-queued handle that has a live context but no usable
remote-module proxy, so a handle with only one of the two does reach the
caller's subsequent orchestration without any thrown error. -/
theorem c1_partial_handle_accepted :
    CoreRegister._initWorkerThread (some ⟨some 0, none⟩, false) =
      Except.ok (⟨some 0, none⟩ : WorkerThreadPair) ∧
    (⟨some 0, none⟩ : WorkerThreadPair).worker = some 0 ∧
    (⟨some 0, none⟩ : WorkerThreadPair).thread = none ∧
    CoreRegister._initController true none (some 0) true = Except.ok false := by
  exact ⟨rfl, rfl, rfl, rfl⟩

/-- C3: every forwarded resize payload duplicates `x`/`width` and
`y`/`height`, carries the surface's `top`/`left` offset, and derives the
effective dimensions as the viewport's when `fullScreen` is set and the
explicit surface's otherwise; in particular `fullScreen=true` with viewport
1280×720 yields `width=1280, height=720, x=1280, y=720`, and
`fullScreen=false` with surface 800×600 yields `width=800, height=600`. -/
theorem c3_resize_forwarding :
    (∀ (fullScreen : Bool) (iw ih cw ch rt rl : Int),
      (ModulesRegister.resizePayload fullScreen iw ih cw ch rt rl).width =
          (if fullScreen then iw else cw) ∧
      (ModulesRegister.resizePayload fullScreen iw ih cw ch rt rl).height =
          (if fullScreen then ih else ch) ∧
      (ModulesRegister.resizePayload fullScreen iw ih cw ch rt rl).x =
        (ModulesRegister.resizePayload fullScreen iw ih cw ch rt rl).width ∧
      (ModulesRegister.resizePayload fullScreen iw ih cw ch rt rl).y =
        (ModulesRegister.resizePayload fullScreen iw ih cw ch rt rl).height ∧
      (ModulesRegister.resizePayload fullScreen iw ih cw ch rt rl).top = rt ∧
      (ModulesRegister.resizePayload fullScreen iw ih cw ch rt rl).left = rl ∧
      (ModulesRegister.resizePayload fullScreen iw ih cw ch rt rl).type = "resize") ∧
    ModulesRegister.resizePayload true 1280 720 800 600 16 32 =
      ⟨"resize", 1280, 720, 16, 32, 1280, 720⟩ ∧
    ModulesRegister.resizePayload false 1280 720 800 600 16 32 =
      ⟨"resize", 800, 600, 16, 32, 800, 600⟩ := by
  exact ⟨fun fs iw ih cw ch rt rl => ⟨rfl, rfl, rfl, rfl, rfl, rfl, rfl⟩, rfl, rfl⟩

/-- C6: evaluating the code at the failing input — a second `init()` call.
The current core `RegisterModule.init` checks its `initialized` flag but
nothing ever sets that flag, so after a first complete `init()` the flag is
still `false` and a second call re-runs the whole setup (spawning a second
worker); the legacy modules `RegisterModule.init` has no guard at all and
likewise re-runs setup.  The worker-resident `CoreModule.init`, whose flag
is both checked and set, is a genuine no-op on the second call. -/
theorem c6_reinit_reruns_setup :
    (CoreRegister.RegisterModule_init
        (CoreRegister.RegisterModule_init CoreRegister.RegisterState.fresh)).workersSpawned = 2 ∧
    (CoreRegister.RegisterModule_init CoreRegister.RegisterState.fresh).initialized = false ∧
    (ModulesRegister.RegisterModule_init
        (ModulesRegister.RegisterModule_init ⟨0⟩)).setupRuns = 2 ∧
    CoreWorker.init ⟨true, true⟩ (CoreWorker.init ⟨true, true⟩ CoreWorker.CoreState.fresh) =
      CoreWorker.init ⟨true, true⟩ CoreWorker.CoreState.fresh := by
  refine ⟨rfl, rfl, rfl, by decide⟩

/-- Every valid camera-mode value is truthy, so the source's
`props.defaultCamera && props.defaultCamera in DefaultCameraType` guard
coincides with plain key membership. -/
lemma truthy_and_inDefaultCameraType (v : ModulesRegister.JSVal) :
    (ModulesRegister.truthy v && ModulesRegister.inDefaultCameraType v) =
      ModulesRegister.inDefaultCameraType v := by
  cases v with
  | str s =>
    show (!(s == "") && ModulesRegister.DefaultCameraTypeKeys.contains s) =
      ModulesRegister.DefaultCameraTypeKeys.contains s
    cases h : ModulesRegister.DefaultCameraTypeKeys.contains s with
    | false => simp
    | true =>
      simp only [Bool.and_true]
      simp only [ModulesRegister.DefaultCameraTypeKeys, List.contains_cons,
        List.contains_nil, Bool.or_false, Bool.or_eq_true, beq_iff_eq] at h
      rcases h with h1 | h1 <;> subst h1 <;> rfl
  | undef => rfl
  | boolean b => show (b && false) = false; simp
  | url u => rfl
  | number n => show (!(n == 0) && false) = false; simp
  | obj => rfl

/-- An undefined value is not a boolean, so the source's
`isUndefined(v) || !isBoolean(v)` guard coincides with `!isBoolean(v)`. -/
lemma isUndefined_or_not_isBoolean (v : ModulesRegister.JSVal) :
    (ModulesRegister.isUndefined v || !ModulesRegister.isBoolean v) =
      !ModulesRegister.isBoolean v := by
  cases v <;> rfl

/-- C10: the public `register` entry point throws exactly when `location` is
missing or neither a string nor a `URL`; otherwise it resolves to the props
with each init-subject field that is undefined or not of its expected type
replaced by its default — `startTimer` `true`, `fullScreen` `true`,
`withMiniCamera` `false`, and the camera mode the default perspective
camera. -/
theorem c10_register_entry (props : ModulesRegister.RegisterProps) :
    ModulesRegister.register props =
      if ModulesRegister.isString props.location || ModulesRegister.isURL props.location
      then Except.ok (ModulesRegister.claimNormalize props)
      else Except.error ("Invalid register props detected. location path is required") := by
  rcases props with ⟨loc, dc, wmc, st, fs⟩
  have hcam : (if (!(ModulesRegister.truthy dc && ModulesRegister.inDefaultCameraType dc)) = true
      then ModulesRegister.JSVal.str "PERSPECTIVE" else dc) =
      (if ModulesRegister.inDefaultCameraType dc = true then dc
       else ModulesRegister.JSVal.str "PERSPECTIVE") := by
    rw [truthy_and_inDefaultCameraType]
    cases ModulesRegister.inDefaultCameraType dc <;> simp
  have hfield : ∀ (v : ModulesRegister.JSVal) (d : Bool),
      (if (ModulesRegister.isUndefined v || !ModulesRegister.isBoolean v) = true
        then ModulesRegister.JSVal.boolean d else v) =
      (if ModulesRegister.isBoolean v = true then v else ModulesRegister.JSVal.boolean d) := by
    intro v d
    rw [isUndefined_or_not_isBoolean]
    cases ModulesRegister.isBoolean v <;> simp
  cases loc <;>
    simp only [ModulesRegister.register, ModulesRegister.claimNormalize,
      ModulesRegister.isString, ModulesRegister.isURL, hcam, hfield,
      Bool.not_false, Bool.not_true, Bool.and_true, Bool.and_false,
      Bool.false_and, Bool.true_and, Bool.or_true, Bool.or_false,
      Bool.false_or, Bool.true_or] <;> rfl

/-- C9: both register variants resolve the surface in the claimed order —
the supplied element itself if it is a canvas element; else the
selector-resolved element if the supplied value is a string resolving to a
canvas element; else a freshly created fallback canvas appended to the
document — and any DOM failure during this stage is caught and logged with
the canvas subsystem named, the method returning normally instead of
propagating the error. -/
theorem c9_canvas_setup :
    (∀ (props : CanvasProp) (query : String → Option CanvasElem),
      (CoreRegister._initCanvas props ⟨query, none⟩).canvas =
          some (claimResolveCanvas CoreRegister.fallbackCanvas props query).1 ∧
      (CoreRegister._initCanvas props ⟨query, none⟩).appendedFresh =
          (claimResolveCanvas CoreRegister.fallbackCanvas props query).2 ∧
      (CoreRegister._initCanvas props ⟨query, none⟩).log = none) ∧
    (∀ (props : CanvasProp) (query : String → Option CanvasElem),
      (ModulesRegister._initCanvas props ⟨query, none⟩).canvas =
          some (if (claimResolveCanvas ModulesRegister.freshCanvas props query).1.hasParent
                then (claimResolveCanvas ModulesRegister.freshCanvas props query).1
                else { (claimResolveCanvas ModulesRegister.freshCanvas props query).1
                       with hasParent := true }) ∧
      (ModulesRegister._initCanvas props ⟨query, none⟩).log = none) ∧
    (∀ (props : CanvasProp) (query : String → Option CanvasElem) (msg : String),
      CoreRegister._initCanvas props ⟨query, some msg⟩ =
        ⟨none, false, some ("🛑 Unable to initialize the canvas:\n" ++ msg)⟩ ∧
      ModulesRegister._initCanvas props ⟨query, some msg⟩ =
        ⟨none, false, some ("🛑 Unable to initialize the canvas:\n" ++ msg)⟩) := by
  refine ⟨?_, ?_, ?_⟩
  · intro props query
    cases props with
    | element e =>
      cases he : e.isCanvas <;>
        simp [CoreRegister._initCanvas, claimResolveCanvas, he]
    | selector sel =>
      cases hq : query sel with
      | none => simp [CoreRegister._initCanvas, claimResolveCanvas, hq]
      | some q =>
        cases hqc : q.isCanvas <;>
          simp [CoreRegister._initCanvas, claimResolveCanvas, hq, hqc]
    | missing => simp [CoreRegister._initCanvas, claimResolveCanvas]
  · intro props query
    cases props with
    | element e =>
      cases he : e.isCanvas with
      | true =>
        cases hp : e.hasParent <;>
          simp [ModulesRegister._initCanvas, claimResolveCanvas, he, hp]
      | false =>
        simp [ModulesRegister._initCanvas, claimResolveCanvas, he,
          ModulesRegister.freshCanvas]
    | selector sel =>
      cases hq : query sel with
      | none =>
        simp [ModulesRegister._initCanvas, claimResolveCanvas, hq,
          ModulesRegister.freshCanvas]
      | some q =>
        cases hqc : q.isCanvas with
        | true =>
          cases hp : q.hasParent <;>
            simp [ModulesRegister._initCanvas, claimResolveCanvas, hq, hqc, hp]
        | false =>
          simp [ModulesRegister._initCanvas, claimResolveCanvas, hq, hqc,
            ModulesRegister.freshCanvas]
    | missing =>
      simp [ModulesRegister._initCanvas, claimResolveCanvas,
        ModulesRegister.freshCanvas]
  · intro props query msg
    exact ⟨rfl, rfl⟩

/-- C8, amended: on disposal the surface is detached and released exactly
when it carries the `data-reactive="true"` marker; the system sets that
marker exactly on the fallback surface it creates, so the fallback is always
detached, and a caller-supplied surface is detached only when it already
carried the marker itself — one without it is never detached automatically.
Worker-pool termination and the `initialized` reset are unaffected by which
case holds. -/
theorem c8_dispose_surface :
    (∀ (props : CanvasProp) (query : String → Option CanvasElem),
      (CoreRegister.RegisterModule_dispose
          (CoreRegister._initCanvas props ⟨query, none⟩).canvas).detachedCanvas =
        (claimResolveCanvas CoreRegister.fallbackCanvas props query).1.reactiveMark) ∧
    CoreRegister.fallbackCanvas.reactiveMark = true ∧
    (∀ (e : CanvasElem) (query : String → Option CanvasElem),
      (CoreRegister.RegisterModule_dispose
          (CoreRegister._initCanvas (.element e) ⟨query, none⟩).canvas).detachedCanvas =
        (if e.isCanvas then e.reactiveMark else true)) ∧
    (∀ canvas : Option CanvasElem,
      (CoreRegister.RegisterModule_dispose canvas).terminatedAll = true ∧
      (CoreRegister.RegisterModule_dispose canvas).initializedAfter = false) := by
  refine ⟨?_, rfl, ?_, fun canvas => ⟨rfl, rfl⟩⟩
  · intro props query
    cases props with
    | element e =>
      cases he : e.isCanvas <;>
        simp [CoreRegister._initCanvas, CoreRegister.RegisterModule_dispose,
          claimResolveCanvas, he, CoreRegister.fallbackCanvas]
    | selector sel =>
      cases hq : query sel with
      | none =>
        simp [CoreRegister._initCanvas, CoreRegister.RegisterModule_dispose,
          claimResolveCanvas, hq, CoreRegister.fallbackCanvas]
      | some q =>
        cases hqc : q.isCanvas <;>
          simp [CoreRegister._initCanvas, CoreRegister.RegisterModule_dispose,
            claimResolveCanvas, hq, hqc, CoreRegister.fallbackCanvas]
    | missing =>
      simp [CoreRegister._initCanvas, CoreRegister.RegisterModule_dispose,
        claimResolveCanvas, CoreRegister.fallbackCanvas]
  · intro e query
    cases he : e.isCanvas <;>
      simp [CoreRegister._initCanvas, CoreRegister.RegisterModule_dispose,
        claimResolveCanvas, he, CoreRegister.fallbackCanvas]

/-- C8, counterexample to the claim as stated: a caller-supplied canvas that
already carries `data-reactive="true"` is used as supplied, yet `dispose`
detaches it from the document — so a surface can be detached without being
the fallback one created by this system. -/
theorem c8_supplied_marked_canvas_detached :
    (CoreRegister._initCanvas (.element ⟨true, true, true⟩)
        ⟨fun _ => none, none⟩).canvas = some ⟨true, true, true⟩ ∧
    (CoreRegister.RegisterModule_dispose
        (some (⟨true, true, true⟩ : CanvasElem))).detachedCanvas = true ∧
    (⟨true, true, true⟩ : CanvasElem).reactiveMark = true := by
  exact ⟨rfl, rfl, rfl⟩

/-- Folding the per-event subscription handler counts every event when the
guard holds and none otherwise. -/
lemma foldl_guarded_count (b : Bool) (l : List Loader.LoadedResourcePayload) :
    ∀ n : Nat,
      l.foldl (fun acc _ => if b then acc + 1 else acc) n =
        if b then n + l.length else n := by
  cases b with
  | true =>
    induction l with
    | nil => intro n; simp
    | cons x xs ih =>
      intro n
      rw [List.foldl_cons]
      simp at ih ⊢
      rw [ih]
      omega
  | false =>
    induction l with
    | nil => intro n; simp
    | cons x xs ih =>
      intro n
      rw [List.foldl_cons]
      simp at ih ⊢

/-- An absent optional prop behaves as `true` and only an explicit `false`
disables the behaviour. -/
lemma undefOrTrue_eq_false_iff (o : Option Bool) :
    ModulesRegister.undefOrTrue o = false ↔ o = some false := by
  cases o with
  | none => simp [ModulesRegister.undefOrTrue]
  | some b => cases b <;> simp [ModulesRegister.undefOrTrue]

/-- C5: for every `loadResources` call, the loader worker's `dispose` is
triggered exactly when `disposeOnComplete` is not explicitly `false` (so by
default) and the progress-completion stream fired — which happens exactly
when some received payload is drained, `loadedCount = toLoadCount`; and
loading starts immediately exactly when `immediateLoad` is not explicitly
`false` (so by default). -/
theorem c5_load_resources_options
    (disposeOnComplete immediateLoad : Option Bool)
    (msgs : List (Option Loader.LoaderMessageData)) :
    ((ModulesRegister.loadResources disposeOnComplete immediateLoad
        (Loader.loadCompleted_obs msgs)).loadCalledImmediately
      = !(immediateLoad == some false)) ∧
    (0 < (ModulesRegister.loadResources disposeOnComplete immediateLoad
        (Loader.loadCompleted_obs msgs)).disposeCalls ↔
      disposeOnComplete ≠ some false ∧
        ∃ p ∈ Loader.load_obs msgs, p.loadedCount = p.toLoadCount) := by
  constructor
  · cases immediateLoad with
    | none => rfl
    | some b => cases b <;> rfl
  · have hd : (ModulesRegister.loadResources disposeOnComplete immediateLoad
        (Loader.loadCompleted_obs msgs)).disposeCalls =
        if ModulesRegister.undefOrTrue disposeOnComplete
        then (Loader.loadCompleted_obs msgs).length else 0 := by
      show (Loader.loadCompleted_obs msgs).foldl _ 0 = _
      rw [foldl_guarded_count]
      cases ModulesRegister.undefOrTrue disposeOnComplete <;> simp
    rw [hd]
    cases hflag : ModulesRegister.undefOrTrue disposeOnComplete with
    | false =>
      have hdc := (undefOrTrue_eq_false_iff disposeOnComplete).mp hflag
      simp [hdc]
    | true =>
      have hdc : disposeOnComplete ≠ some false := by
        intro h
        rw [(undefOrTrue_eq_false_iff disposeOnComplete).mpr h] at hflag
        exact Bool.false_ne_true hflag
      simp only [if_pos rfl, hdc, ne_eq, not_false_eq_true, true_and]
      show 0 < ((Loader.load_obs msgs).filter _).length ↔ _
      rw [← List.countP_eq_length_filter, List.countP_pos_iff]
      constructor
      · rintro ⟨p, hp, hpred⟩
        exact ⟨p, hp, (beq_iff_eq.mp hpred).symm⟩
      · rintro ⟨p, hp, hpred⟩
        exact ⟨p, hp, beq_iff_eq.mpr hpred.symm⟩

/-- C7: a cross-boundary envelope failing its expected shape or token check
is silently dropped — it contributes nothing to the decoded loader streams
(wrong or missing token, absent payload or resource), and a message with no
canvas leaves the worker-resident core module's state untouched; in neither
case is an error raised (the handlers are total). -/
theorem c7_malformed_messages_dropped
    (pre post : List (Option Loader.LoaderMessageData))
    (bad : Option Loader.LoaderMessageData)
    (hbad : Loader.acceptLoadMessage bad = false)
    (s : CoreWorker.CoreState) (m : CoreWorker.CoreMessageData)
    (hm : m.canvas = none) :
    Loader.load_obs (pre ++ bad :: post) = Loader.load_obs (pre ++ post) ∧
    Loader.loadCompleted_obs (pre ++ bad :: post) =
      Loader.loadCompleted_obs (pre ++ post) ∧
    CoreWorker._onMessage s (some m) = s ∧
    CoreWorker._onMessage s none = s := by
  have hfilter : (pre ++ bad :: post).filter Loader.acceptLoadMessage =
      (pre ++ post).filter Loader.acceptLoadMessage := by
    simp [List.filter_append, List.filter_cons, hbad]
  have hload : Loader.load_obs (pre ++ bad :: post) = Loader.load_obs (pre ++ post) := by
    show ((pre ++ bad :: post).filter _).map _ = ((pre ++ post).filter _).map _
    rw [hfilter]
  refine ⟨hload, ?_, ?_, rfl⟩
  · show (Loader.load_obs (pre ++ bad :: post)).filter _ = _
    rw [hload]
    rfl
  · show (if m.canvas.isNone || s.initialized then s else _) = s
    rw [hm]
    rfl

/-- C7 witness: dropping a concrete malformed envelope between well-formed
traffic changes nothing, and a canvas-less message leaves a fresh core
module untouched. -/
theorem c7_malformed_messages_dropped_witness :
    Loader.load_obs ([goodLoadMessage] ++ badLoadMessage :: []) =
      Loader.load_obs ([goodLoadMessage] ++ []) ∧
    Loader.loadCompleted_obs ([goodLoadMessage] ++ badLoadMessage :: []) =
      Loader.loadCompleted_obs ([goodLoadMessage] ++ []) ∧
    CoreWorker._onMessage CoreWorker.CoreState.fresh (some ⟨none, none⟩) =
      CoreWorker.CoreState.fresh ∧
    CoreWorker._onMessage CoreWorker.CoreState.fresh none =
      CoreWorker.CoreState.fresh :=
  c7_malformed_messages_dropped [goodLoadMessage] [] badLoadMessage rfl
    CoreWorker.CoreState.fresh ⟨none, none⟩ rfl

namespace CoreWorker

/-- Running a concatenation of operation lists runs them in sequence. -/
lemma run_append (s : CoreState) (l₁ l₂ : List Op) :
    run s (l₁ ++ l₂) = run (run s l₁) l₂ := by
  induction l₁ generalizing s with
  | nil => rfl
  | cons op ops ih => simp [run, ih]

/-- While the timer is live and the stream open, `n` ticks append exactly
`n` strictly alternating `UPDATE_STARTED`/`UPDATE_ENDED` pairs. -/
lemma run_replicate_tick (n : Nat) :
    ∀ s : CoreState, s.ticking = true → s.lifecycle.closed = false →
      run s (List.replicate n .tick) =
        ⟨s.initialized, true, ⟨s.lifecycle.events ++ updatePairs n, false⟩⟩ := by
  induction n with
  | zero =>
    rintro ⟨i, t, ⟨ev, c⟩⟩ ht hc
    cases ht
    cases hc
    simp [run, updatePairs]
  | succ n ih =>
    rintro ⟨i, t, ⟨ev, c⟩⟩ ht hc
    cases ht
    cases hc
    rw [List.replicate_succ]
    show run (tick ⟨i, true, ⟨ev, false⟩⟩) _ = _
    rw [show tick ⟨i, true, ⟨ev, false⟩⟩ =
        ⟨i, true, ⟨(ev ++ [.UPDATE_STARTED]) ++ [.UPDATE_ENDED], false⟩⟩ from rfl]
    rw [ih _ rfl rfl]
    simp [updatePairs]

/-- After disposal — stream closed, timer stopped, flag still set — every
further operation is a no-op: the module's state, its lifecycle stream
included, is frozen. -/
lemma step_after_dispose (s : CoreState) (hinit : s.initialized = true)
    (ht : s.ticking = false) (hc : s.lifecycle.closed = true) :
    ∀ op : Op, step s op = s := by
  rcases s with ⟨i, t, ⟨ev, c⟩⟩
  cases hinit
  cases ht
  cases hc
  rintro (⟨h, st⟩ | _ | _)
  · show CoreWorker.init _ _ = _
    simp [CoreWorker.init]
  · rfl
  · show CoreWorker.dispose _ = _
    simp [CoreWorker.dispose, RxSubject.next, RxSubject.complete]

/-- Iterated form of `step_after_dispose`. -/
lemma run_after_dispose (s : CoreState) (hinit : s.initialized = true)
    (ht : s.ticking = false) (hc : s.lifecycle.closed = true) :
    ∀ ops : List Op, run s ops = s := by
  intro ops
  induction ops with
  | nil => rfl
  | cons op rest ih =>
    show run (step s op) rest = s
    rw [step_after_dispose s hinit ht hc op]
    exact ih

/-- Neither lifecycle terminal event occurs among the update pairs. -/
lemma updatePairs_count (n : Nat) :
    (updatePairs n).count LifecycleState.INITIALIZED = 0 ∧
    (updatePairs n).count LifecycleState.DISPOSED = 0 := by
  induction n with
  | zero => simp [updatePairs]
  | succ n ih => simp [updatePairs, List.count_cons, ih.1, ih.2]

end CoreWorker

/-- C2: a worker-resident module instance that is initialized (with a
delivered canvas), ticks `n` times and is disposed publishes exactly
`INITIALIZED`, then `n` strict `UPDATE_STARTED`/`UPDATE_ENDED` pairs, then a
final `DISPOSED`, after which the stream is completed and — whatever
operations follow — nothing further is ever emitted; `INITIALIZED` and
`DISPOSED` each occur exactly once in the emitted trace. -/
theorem c2_lifecycle_stream (n : Nat) (rest : List CoreWorker.Op) :
    (CoreWorker.run CoreWorker.CoreState.fresh
        (.init true true :: (List.replicate n .tick ++ .dispose :: rest))).lifecycle.events =
      LifecycleState.INITIALIZED ::
        (CoreWorker.updatePairs n ++ [LifecycleState.DISPOSED]) ∧
    (CoreWorker.run CoreWorker.CoreState.fresh
        (.init true true :: (List.replicate n .tick ++ .dispose :: rest))).lifecycle.closed
      = true ∧
    ((CoreWorker.run CoreWorker.CoreState.fresh
        (.init true true :: (List.replicate n .tick ++ .dispose :: rest))).lifecycle.events.count
      LifecycleState.INITIALIZED = 1 ∧
     (CoreWorker.run CoreWorker.CoreState.fresh
        (.init true true :: (List.replicate n .tick ++ .dispose :: rest))).lifecycle.events.count
      LifecycleState.DISPOSED = 1) := by
  have hfinal : CoreWorker.run CoreWorker.CoreState.fresh
      (.init true true :: (List.replicate n .tick ++ .dispose :: rest)) =
      ⟨true, false,
        ⟨LifecycleState.INITIALIZED ::
          (CoreWorker.updatePairs n ++ [LifecycleState.DISPOSED]), true⟩⟩ := by
    show CoreWorker.run (CoreWorker.step CoreWorker.CoreState.fresh (.init true true)) _ = _
    rw [show CoreWorker.step CoreWorker.CoreState.fresh (.init true true) =
        ⟨true, true, ⟨[LifecycleState.INITIALIZED], false⟩⟩ from rfl]
    rw [CoreWorker.run_append,
      CoreWorker.run_replicate_tick n ⟨true, true, ⟨[LifecycleState.INITIALIZED], false⟩⟩ rfl rfl]
    show CoreWorker.run (CoreWorker.step _ .dispose) rest = _
    rw [show CoreWorker.step
        (⟨true, true, ⟨[LifecycleState.INITIALIZED] ++ CoreWorker.updatePairs n, false⟩⟩ :
          CoreWorker.CoreState) .dispose =
        ⟨true, false,
          ⟨([LifecycleState.INITIALIZED] ++ CoreWorker.updatePairs n) ++
            [LifecycleState.DISPOSED], true⟩⟩ from rfl]
    rw [CoreWorker.run_after_dispose _ rfl rfl rfl rest]
    simp
  rw [hfinal]
  refine ⟨rfl, rfl, ?_, ?_⟩
  · simp [List.count_cons, List.count_append, (CoreWorker.updatePairs_count n).1]
  · simp [List.count_cons, List.count_append, (CoreWorker.updatePairs_count n).2]

namespace Serializer

/-- Resolving the stored reference of a table member yields that member
back: side tables are self-contained. -/
lemma getD_refIndex {α : Type} [DecidableEq α] (l : List α) (a d : α)
    (h : a ∈ l) : l.getD (refIndex l a) d = a := by
  induction l with
  | nil => cases h
  | cons b t ih =>
    by_cases hb : b = a
    · subst hb
      simp [refIndex]
    · have ht : a ∈ t := by
        rcases List.mem_cons.mp h with h1 | h1
        · exact absurd h1.symm hb
        · exact h1
      show (b :: t).getD (if b = a then 0 else refIndex t a + 1) d = a
      rw [if_neg hb, List.getD_cons_succ]
      exact ih ht

mutual

/-- Decoding inverts encoding on a subtree whenever the side tables contain
every shared datum the subtree references. -/
theorem decodeNode_encodeNode (gt : List Geometry) (mt : List Material) :
    (o : SceneObject) →
    (∀ g ∈ collectGeometries o, g ∈ gt) →
    (∀ m ∈ collectMaterials o, m ∈ mt) →
    decodeNode gt mt (encodeNode gt mt o) = o
  | .node kind transform g m children, hg, hm => by
    show SceneObject.node _ _ _ _ _ = _
    have hg' : ∀ x ∈ collectGeometriesList children, x ∈ gt := fun x hx =>
      hg x (by
        show x ∈ g.toList ++ collectGeometriesList children
        exact List.mem_append_right _ hx)
    have hm' : ∀ x ∈ collectMaterialsList children, x ∈ mt := fun x hx =>
      hm x (by
        show x ∈ m.toList ++ collectMaterialsList children
        exact List.mem_append_right _ hx)
    have hgeo : (g.map (refIndex gt)).map (fun i => gt.getD i ⟨0, []⟩) = g := by
      cases g with
      | none => rfl
      | some x =>
        show some (gt.getD (refIndex gt x) ⟨0, []⟩) = some x
        rw [getD_refIndex gt x ⟨0, []⟩ (hg x (by
          show x ∈ (some x).toList ++ collectGeometriesList children
          exact List.mem_append_left _ (by simp)))]
    have hmat : (m.map (refIndex mt)).map (fun i => mt.getD i ⟨0, 0⟩) = m := by
      cases m with
      | none => rfl
      | some x =>
        show some (mt.getD (refIndex mt x) ⟨0, 0⟩) = some x
        rw [getD_refIndex mt x ⟨0, 0⟩ (hm x (by
          show x ∈ (some x).toList ++ collectMaterialsList children
          exact List.mem_append_left _ (by simp)))]
    rw [hgeo, hmat, decodeForest_encodeForest gt mt children hg' hm']

/-- Decoding inverts encoding on a forest of subtrees. -/
theorem decodeForest_encodeForest (gt : List Geometry) (mt : List Material) :
    (os : List SceneObject) →
    (∀ g ∈ collectGeometriesList os, g ∈ gt) →
    (∀ m ∈ collectMaterialsList os, m ∈ mt) →
    decodeForest gt mt (encodeForest gt mt os) = os
  | [], _, _ => rfl
  | c :: rest, hg, hm => by
    show decodeNode gt mt (encodeNode gt mt c) ::
      decodeForest gt mt (encodeForest gt mt rest) = c :: rest
    rw [decodeNode_encodeNode gt mt c
        (fun x hx => hg x (by
          show x ∈ collectGeometries c ++ collectGeometriesList rest
          exact List.mem_append_left _ hx))
        (fun x hx => hm x (by
          show x ∈ collectMaterials c ++ collectMaterialsList rest
          exact List.mem_append_left _ hx)),
      decodeForest_encodeForest gt mt rest
        (fun x hx => hg x (by
          show x ∈ collectGeometries c ++ collectGeometriesList rest
          exact List.mem_append_right _ hx))
        (fun x hx => hm x (by
          show x ∈ collectMaterials c ++ collectMaterialsList rest
          exact List.mem_append_right _ hx))]

end

end Serializer

/-- C4: encoding a scene-graph object tree with the Graph Serializer and
decoding the result reconstructs the tree exactly — same pre-order node-kind
sequence, same hierarchy shape, equal transform/geometry/material data and
animation clips — and decoding consults only the serialized node and its
side tables, never the sender's original objects. -/
theorem c4_serializer_roundtrip (s : Serializer.Scene) :
    Serializer.decodeScene (Serializer.encodeScene s) = s ∧
    Serializer.preOrderKinds (Serializer.decodeScene (Serializer.encodeScene s)).root =
      Serializer.preOrderKinds s.root := by
  have h : Serializer.decodeScene (Serializer.encodeScene s) = s := by
    simp only [Serializer.encodeScene, Serializer.decodeScene]
    rw [Serializer.decodeNode_encodeNode _ _ s.root
      (fun g hg => List.mem_dedup.mpr hg) (fun m hm => List.mem_dedup.mpr hm)]
  exact ⟨h, by rw [h]⟩

end QuickThree
